import Mathlib

/-!
Verification of the tri-lighting operator (src/lighting_tri_lights.py,
class OBJECT_OT_TriLighting).  The execute method of the operator (lines 235-389)
is embedded shallowly: machine floats become real numbers, the Blender host
API (light datablocks, lamp objects, collection linking, track-to
constraints, camera auto-creation) becomes an explicit log of created
entities, and a Python exception raised at a host-API call site becomes an
Except error that carries the raised message together with the scene state
at the moment of the raise.
-/

open scoped Classical

namespace TriLighting

/-- Three-dimensional vector with real components, embedding mathutils.Vector. -/
@[ext]
structure Vec3 where
  x : ℝ
  y : ℝ
  z : ℝ

/-- Componentwise vector difference, embedding cam_position - obj_position (line 273). -/
noncomputable def Vec3.sub (a b : Vec3) : Vec3 :=
  ⟨a.x - b.x, a.y - b.y, a.z - b.z⟩

/-- Scalar multiple of a vector, embedding (1 / vector_length) * delta_position (line 286). -/
noncomputable def Vec3.smul (r : ℝ) (v : Vec3) : Vec3 :=
  ⟨r * v.x, r * v.y, r * v.z⟩

/-- Light types offered by the operator (Light_Type_List, lines 81-86). -/
inductive LightType where
  | POINT
  | SUN
  | SPOT
  | AREA
deriving DecidableEq

/-- Area-light shapes offered by the operator (Light_Shape_List, lines 103-108). -/
inductive LightShape where
  | SQUARE
  | RECTANGLE
  | DISK
  | ELLIPSE
deriving DecidableEq

/-- The operator properties declared on OBJECT_OT_TriLighting (lines 42-168).
IntProperty becomes an integer, FloatProperty a real, EnumProperty the
corresponding inductive type. -/
structure TriLightingProps where
  height : ℝ
  distance : ℝ
  energy : ℤ
  contrast : ℤ
  leftangle : ℤ
  rightangle : ℤ
  backangle : ℤ
  primarytype : LightType
  secondarytype : LightType
  key_light_shape : LightShape
  secondary_light_shape : LightShape
  key_light_size : ℝ
  secondary_light_size : ℝ
  shadow_soft_size_key : ℝ
  shadow_soft_size_fill : ℝ
  spot_size_key : ℝ
  spot_blend_key : ℝ
  spot_size_fill : ℝ
  spot_blend_fill : ℝ

/-- Reference to a scene object; only the location is relevant to the operator. -/
structure ObjRef where
  location : Vec3

/-- Scene context read by execute: the effective camera obtained from
view.camera or scene.camera (lines 240-243, none when both are absent), the
current viewpoint that camera_to_view would store into an auto-created
camera (line 250), and the active object (line 255). -/
structure SceneInput where
  camera : Option ObjRef
  viewpoint : Vec3
  activeObject : ObjRef

/-- A light datablock as configured by the operator.  A field holds none
while the corresponding Blender attribute was never assigned by the
operator (so the host default is still in place), and some v once the
operator assigned v to it. -/
structure LightData where
  name : String
  type : LightType
  energy : ℝ
  shape : Option LightShape
  size : Option ℝ
  spot_size : Option ℝ
  spot_blend : Option ℝ
  shadow_soft_size : Option ℝ

/-- A TRACK_TO constraint as configured on each lamp (lines 317-320). -/
structure TrackToConstraint where
  target : ObjRef
  track_axis : String
  up_axis : String

/-- A lamp object in the scene: its datablock, whether it was linked into
the collection, its location, and the constraints added to it. -/
structure Lamp where
  name : String
  data : LightData
  linked : Bool
  location : Vec3
  constraints : List TrackToConstraint

/-- Log of entities the operator has created in the host scene, plus a
counter of host-API calls made so far (used to address failure injection). -/
structure HostState where
  calls : ℕ
  cameras : List ObjRef
  lightDatas : List LightData
  lamps : List Lamp

/-- Scene log at operator entry: nothing created yet. -/
def initState : HostState := ⟨0, [], [], []⟩

/-- Operator return status: the FINISHED or CANCELLED set returned by execute. -/
inductive Status where
  | FINISHED
  | CANCELLED
deriving DecidableEq

/-- Outcome of the try-block body: ran to the end, or took the
degenerate-geometry early return (lines 279-284). -/
inductive CoreResult where
  | finished
  | cancelledNoViable
deriving DecidableEq

/-- Full observable outcome of one invocation: status, warnings reported
via self.report, console diagnostics, and the scene log. -/
structure ExecOutcome where
  status : Status
  warnings : List String
  console : List String
  state : HostState

/-- Warning reported on the degenerate-geometry early return (lines 281-282). -/
def noViableWarning : String := "Operation Cancelled. No viable object in the scene"

/-- Warning reported by the top-level exception handler (lines 381-382). -/
def genericWarning : String := "Some operations could not be performed (See Console for more info)"

/-- Console diagnostic printed by the exception handler (lines 384-385),
with the raised error appended. -/
def consoleError (e : String) : String :=
  "\n[Add Advanced  Objects]\nOperator: object.trilighting\nError: " ++ e

/-- math.radians: degrees to radians. -/
noncomputable def radians (x : ℝ) : ℝ := x * Real.pi / 180

/-- The rotation applied to the x,y components of the normalized direction
vector, z kept from the copied vector (lines 289-294, 323-328, 353-357):
new.x = cos(a) * v.x + (-sin(a) * v.y), new.y = sin(a) * v.x + cos(a) * v.y. -/
noncomputable def rotateXY (a : ℝ) (v : Vec3) : Vec3 :=
  ⟨Real.cos a * v.x + (-Real.sin a * v.y),
   Real.sin a * v.x + Real.cos a * v.y,
   v.z⟩

/-- Effective camera position used for the direction calculation: the
existing camera, or (after auto-creation plus camera_to_view, lines
245-253) the current viewpoint. -/
def camPosition (s : SceneInput) : Vec3 :=
  match s.camera with
  | some c => c.location
  | none => s.viewpoint

/-- delta_position = cam_position - obj_position (line 273). -/
noncomputable def deltaPosition (s : SceneInput) : Vec3 :=
  Vec3.sub (camPosition s) s.activeObject.location

/-- vector_length = sqrt(dx^2 + dy^2 + dz^2) (lines 274-278). -/
noncomputable def vectorLength (s : SceneInput) : ℝ :=
  Real.sqrt ((deltaPosition s).x ^ 2 + (deltaPosition s).y ^ 2 + (deltaPosition s).z ^ 2)

/-- single_vector = (1 / vector_length) * delta_position (line 286). -/
noncomputable def singleVector (s : SceneInput) : Vec3 :=
  Vec3.smul (1 / vectorLength s) (deltaPosition s)

/-- keyEnergy (lines 258-263): full energy when contrast is positive,
scaled by the contrast percentage otherwise. -/
noncomputable def keyEnergy (p : TriLightingProps) : ℝ :=
  if 0 < p.contrast then (p.energy : ℝ)
  else ((p.energy : ℝ) / 100) * |(p.contrast : ℝ)|

/-- backEnergy (lines 258-264). -/
noncomputable def backEnergy (p : TriLightingProps) : ℝ :=
  if 0 < p.contrast then ((p.energy : ℝ) / 100) * |(p.contrast : ℝ)|
  else (p.energy : ℝ)

/-- fillEnergy (lines 258-265); same split as backEnergy. -/
noncomputable def fillEnergy (p : TriLightingProps) : ℝ :=
  if 0 < p.contrast then ((p.energy : ℝ) / 100) * |(p.contrast : ℝ)|
  else (p.energy : ℝ)

/-- Back lamp location (lines 289-297, 315): object xy plus distance times
the direction vector rotated by backangle; z is the configured height. -/
noncomputable def backLocation (p : TriLightingProps) (s : SceneInput) : Vec3 :=
  ⟨s.activeObject.location.x + p.distance * (rotateXY (radians (p.backangle : ℝ)) (singleVector s)).x,
   s.activeObject.location.y + p.distance * (rotateXY (radians (p.backangle : ℝ)) (singleVector s)).y,
   p.height⟩

/-- Fill (right) lamp location (lines 323-331, 346): rotation by rightangle. -/
noncomputable def rightLocation (p : TriLightingProps) (s : SceneInput) : Vec3 :=
  ⟨s.activeObject.location.x + p.distance * (rotateXY (radians (p.rightangle : ℝ)) (singleVector s)).x,
   s.activeObject.location.y + p.distance * (rotateXY (radians (p.rightangle : ℝ)) (singleVector s)).y,
   p.height⟩

/-- Key (left) lamp location (lines 353-359, 374): rotation by the negated
leftangle. -/
noncomputable def leftLocation (p : TriLightingProps) (s : SceneInput) : Vec3 :=
  ⟨s.activeObject.location.x + p.distance * (rotateXY (radians (-(p.leftangle : ℝ))) (singleVector s)).x,
   s.activeObject.location.y + p.distance * (rotateXY (radians (-(p.leftangle : ℝ))) (singleVector s)).y,
   p.height⟩

/-- Datablock configuration shared by the back and fill lights (lines
299-311 and 333-342): type from secondarytype, then shape and size only for
AREA, spot_size (degrees to radians) and spot_blend only for SPOT, and
shadow_soft_size only for POINT or SPOT. -/
noncomputable def secondaryLightData (p : TriLightingProps) (name : String) (energy : ℝ) : LightData :=
  let d : LightData := ⟨name, p.secondarytype, energy, none, none, none, none, none⟩
  let d := if p.secondarytype = LightType.AREA then
    { d with shape := some p.secondary_light_shape, size := some p.secondary_light_size } else d
  let d := if p.secondarytype = LightType.SPOT then
    { d with spot_size := some (radians p.spot_size_fill), spot_blend := some p.spot_blend_fill } else d
  if p.secondarytype = LightType.POINT ∨ p.secondarytype = LightType.SPOT then
    { d with shadow_soft_size := some p.shadow_soft_size_fill } else d

/-- Datablock configuration of the key light (lines 361-370), driven by
primarytype and the key parameter set. -/
noncomputable def keyLightData (p : TriLightingProps) (name : String) (energy : ℝ) : LightData :=
  let d : LightData := ⟨name, p.primarytype, energy, none, none, none, none, none⟩
  let d := if p.primarytype = LightType.AREA then
    { d with shape := some p.key_light_shape, size := some p.key_light_size } else d
  let d := if p.primarytype = LightType.SPOT then
    { d with spot_size := some (radians p.spot_size_key), spot_blend := some p.spot_blend_key } else d
  if p.primarytype = LightType.POINT ∨ p.primarytype = LightType.SPOT then
    { d with shadow_soft_size := some p.shadow_soft_size_key } else d

/-- The TRACK_TO constraint configured identically on every lamp (lines
317-320, 347-350, 375-378): target is the active object, tracking the local
negative Z axis with Y up. -/
def trackToObj (s : SceneInput) : TrackToConstraint :=
  ⟨s.activeObject, "TRACK_NEGATIVE_Z", "UP_Y"⟩

/-- Camera auto-creation effect (lines 245-253): a camera object placed at
the current viewpoint is created and linked. -/
def newCameraEffect (loc : Vec3) (st : HostState) : HostState :=
  { st with cameras := st.cameras ++ [⟨loc⟩] }

/-- bpy.data.lights.new plus the subsequent attribute configuration. -/
def newLightEffect (d : LightData) (st : HostState) : HostState :=
  { st with lightDatas := st.lightDatas ++ [d] }

/-- bpy.data.objects.new for a lamp: not yet linked, at the default origin. -/
def newLampEffect (l : Lamp) (st : HostState) : HostState :=
  { st with lamps := st.lamps ++ [l] }

/-- Replace the most recently created lamp with an updated record
(collection linking, location assignment, constraint creation all act on
the lamp object just created). -/
def setLastLamp (l : Lamp) (st : HostState) : HostState :=
  { st with lamps := st.lamps.dropLast ++ [l] }

/-- One host-API call.  The failure oracle some (n, msg) makes the n-th
host call raise a Python exception with message msg before performing its
effect; every other call performs its effect and bumps the call counter. -/
def hostCall (fail : Option (ℕ × String)) (f : HostState → HostState) (st : HostState) :
    Except (String × HostState) HostState :=
  match fail with
  | none => Except.ok (f { st with calls := st.calls + 1 })
  | some (n, msg) =>
      if st.calls = n then Except.error (msg, st)
      else Except.ok (f { st with calls := st.calls + 1 })

/-- Creation of one lamp (e.g. lines 299-320 for the back light): create
the datablock, create the lamp object, link it into the collection, assign
its location (a plain attribute set, not a fallible host call), and add the
TRACK_TO constraint. -/
noncomputable def createLamp (fail : Option (ℕ × String)) (d : LightData) (loc : Vec3)
    (c : TrackToConstraint) (st : HostState) : Except (String × HostState) HostState :=
  match hostCall fail (newLightEffect d) st with
  | Except.error e => Except.error e
  | Except.ok st1 =>
    match hostCall fail (newLampEffect ⟨d.name, d, false, ⟨0, 0, 0⟩, []⟩) st1 with
    | Except.error e => Except.error e
    | Except.ok st2 =>
      match hostCall fail (setLastLamp ⟨d.name, d, true, ⟨0, 0, 0⟩, []⟩) st2 with
      | Except.error e => Except.error e
      | Except.ok st3 =>
        hostCall fail (setLastLamp ⟨d.name, d, true, loc, [c]⟩)
          (setLastLamp ⟨d.name, d, true, loc, []⟩ st3)

/-- Body of the try block of execute (lines 236-378): resolve or
auto-create the camera, compute the energies and direction, take the
degenerate-geometry early return when the direction vector has zero
length, and otherwise create the back, fill and key lamps in that order. -/
noncomputable def executeCore (p : TriLightingProps) (s : SceneInput)
    (fail : Option (ℕ × String)) : Except (String × HostState) (CoreResult × HostState) :=
  match (match s.camera with
         | some _ => Except.ok initState
         | none => hostCall fail (newCameraEffect s.viewpoint) initState) with
  | Except.error e => Except.error e
  | Except.ok st0 =>
    if vectorLength s = 0 then
      Except.ok (CoreResult.cancelledNoViable, st0)
    else
      match createLamp fail (secondaryLightData p "TriLamp-Back" (backEnergy p))
          (backLocation p s) (trackToObj s) st0 with
      | Except.error e => Except.error e
      | Except.ok st1 =>
        match createLamp fail (secondaryLightData p "TriLamp-Fill" (fillEnergy p))
            (rightLocation p s) (trackToObj s) st1 with
        | Except.error e => Except.error e
        | Except.ok st2 =>
          match createLamp fail (keyLightData p "TriLamp-Key" (keyEnergy p))
              (leftLocation p s) (trackToObj s) st2 with
          | Except.error e => Except.error e
          | Except.ok st3 => Except.ok (CoreResult.finished, st3)

/-- The whole execute method (lines 235-389): the try-block body wrapped in
the top-level exception handler.  A normal run returns FINISHED, the
degenerate-geometry early return reports its warning and CANCELLED, and a
raised exception is caught, the generic warning reported, the error
forwarded to the console, and CANCELLED returned with the scene log as it
stood at the raise. -/
noncomputable def execute (p : TriLightingProps) (s : SceneInput)
    (fail : Option (ℕ × String)) : ExecOutcome :=
  match executeCore p s fail with
  | Except.ok (CoreResult.finished, st) => ⟨Status.FINISHED, [], [], st⟩
  | Except.ok (CoreResult.cancelledNoViable, st) => ⟨Status.CANCELLED, [noViableWarning], [], st⟩
  | Except.error (msg, st) => ⟨Status.CANCELLED, [genericWarning], [consoleError msg], st⟩

/-- Scene log right after the camera-resolution step of a run in which no
host call has failed yet: empty, except for the auto-created camera when
the scene had none. -/
def startState (s : SceneInput) : HostState :=
  match s.camera with
  | some _ => initState
  | none => ⟨1, [⟨s.viewpoint⟩], [], []⟩

/-- The default operator properties (defaults of lines 42-168). -/
noncomputable def defaultProps : TriLightingProps :=
  ⟨5, 5, 3, 50, 26, 45, 235, LightType.AREA, LightType.AREA,
   LightShape.SQUARE, LightShape.SQUARE, 0.25, 0.25, 0, 0, 45, 0.15, 45, 0.15⟩

/-- Example scene of the spec: active object at the origin, camera at
(0, -5, 0). -/
noncomputable def exampleScene : SceneInput :=
  ⟨some ⟨⟨0, -5, 0⟩⟩, ⟨0, 0, 0⟩, ⟨⟨0, 0, 0⟩⟩⟩

/-- Degenerate scene with no camera: the viewpoint (where the auto-created
camera ends up) coincides with the active object. -/
noncomputable def degenerateScene : SceneInput :=
  ⟨none, ⟨0, 0, 0⟩, ⟨⟨0, 0, 0⟩⟩⟩

/-- Degenerate scene with an existing camera placed exactly at the active
object. -/
noncomputable def degenerateCamScene : SceneInput :=
  ⟨some ⟨⟨1, 2, 3⟩⟩, ⟨0, 0, 0⟩, ⟨⟨1, 2, 3⟩⟩⟩

/-- The default properties with the key light type switched to SPOT. -/
noncomputable def spotKeyProps : TriLightingProps :=
  { defaultProps with primarytype := LightType.SPOT }

/-- A scene whose camera sits directly above the active object. -/
noncomputable def overheadScene : SceneInput :=
  ⟨some ⟨⟨2, 3, 9⟩⟩, ⟨0, 0, 0⟩, ⟨⟨2, 3, 4⟩⟩⟩

/-- A host call that does not fail performs its effect and bumps the counter. -/
theorem hostCall_none (f : HostState → HostState) (st : HostState) :
    hostCall none f st = Except.ok (f { st with calls := st.calls + 1 }) := rfl

/-- Any successful host call performs its effect and bumps the counter. -/
theorem hostCall_ok {fail : Option (ℕ × String)} {f : HostState → HostState}
    {st st' : HostState} (h : hostCall fail f st = Except.ok st') :
    st' = f { st with calls := st.calls + 1 } := by
  cases fail with
  | none => simpa [hostCall] using h.symm
  | some nm =>
    obtain ⟨n, msg⟩ := nm
    by_cases hn : st.calls = n
    · simp [hostCall, hn] at h
    · simp [hostCall, hn] at h
      exact h.symm

/-- A failing host call raises the injected message and leaves the state as it was. -/
theorem hostCall_error {n : ℕ} {msg : String} {f : HostState → HostState}
    {st : HostState} {e : String × HostState}
    (h : hostCall (some (n, msg)) f st = Except.error e) : e = (msg, st) := by
  by_cases hn : st.calls = n
  · simp [hostCall, hn] at h
    exact h.symm
  · simp [hostCall, hn] at h

/-- Failure-free lamp creation: four host calls, one new datablock, one new
linked lamp carrying its location and constraint. -/
theorem createLamp_none (d : LightData) (loc : Vec3) (c : TrackToConstraint)
    (n : ℕ) (cams : List ObjRef) (ds : List LightData) (ls : List Lamp) :
    createLamp none d loc c ⟨n, cams, ds, ls⟩ =
      Except.ok ⟨n + 4, cams, ds ++ [d], ls ++ [⟨d.name, d, true, loc, [c]⟩]⟩ := by
  simp [createLamp, hostCall, newLightEffect, newLampEffect, setLastLamp,
    List.dropLast_concat]

/-- Any successful lamp creation has exactly the failure-free effect. -/
theorem createLamp_ok {fail : Option (ℕ × String)} {d : LightData} {loc : Vec3}
    {c : TrackToConstraint} {st st' : HostState}
    (h : createLamp fail d loc c st = Except.ok st') :
    st' = ⟨st.calls + 4, st.cameras, st.lightDatas ++ [d],
           st.lamps ++ [⟨d.name, d, true, loc, [c]⟩]⟩ := by
  obtain ⟨n, cams, ds, ls⟩ := st
  unfold createLamp at h
  split at h
  · exact absurd h (by simp)
  · rename_i st1 h1
    split at h
    · exact absurd h (by simp)
    · rename_i st2 h2
      split at h
      · exact absurd h (by simp)
      · rename_i st3 h3
        obtain rfl := hostCall_ok h1
        obtain rfl := hostCall_ok h2
        obtain rfl := hostCall_ok h3
        obtain rfl := hostCall_ok h
        simp [newLightEffect, newLampEffect, setLastLamp, List.dropLast_concat]

/-- Any failing lamp creation raises the injected message. -/
theorem createLamp_error {n : ℕ} {msg : String} {d : LightData} {loc : Vec3}
    {c : TrackToConstraint} {st : HostState} {e : String × HostState}
    (h : createLamp (some (n, msg)) d loc c st = Except.error e) : e.1 = msg := by
  unfold createLamp at h
  split at h
  · rename_i e1 h1
    cases h
    exact congrArg Prod.fst (hostCall_error h1)
  · rename_i st1 h1
    split at h
    · rename_i e2 h2
      cases h
      exact congrArg Prod.fst (hostCall_error h2)
    · rename_i st2 h2
      split at h
      · rename_i e3 h3
        cases h
        exact congrArg Prod.fst (hostCall_error h3)
      · rename_i st3 h3
        exact congrArg Prod.fst (hostCall_error h)

/-- Name of a configured secondary datablock. -/
theorem secondaryLightData_name (p : TriLightingProps) (name : String) (e : ℝ) :
    (secondaryLightData p name e).name = name := by
  unfold secondaryLightData
  split_ifs <;> rfl

/-- Energy of a configured secondary datablock. -/
theorem secondaryLightData_energy (p : TriLightingProps) (name : String) (e : ℝ) :
    (secondaryLightData p name e).energy = e := by
  unfold secondaryLightData
  split_ifs <;> rfl

/-- Type of a configured secondary datablock. -/
theorem secondaryLightData_type (p : TriLightingProps) (name : String) (e : ℝ) :
    (secondaryLightData p name e).type = p.secondarytype := by
  unfold secondaryLightData
  split_ifs <;> rfl

/-- Shape of a configured secondary datablock: assigned only for AREA. -/
theorem secondaryLightData_shape (p : TriLightingProps) (name : String) (e : ℝ) :
    (secondaryLightData p name e).shape =
      if p.secondarytype = LightType.AREA then some p.secondary_light_shape else none := by
  unfold secondaryLightData
  split_ifs <;> rfl

/-- Size of a configured secondary datablock: assigned only for AREA. -/
theorem secondaryLightData_size (p : TriLightingProps) (name : String) (e : ℝ) :
    (secondaryLightData p name e).size =
      if p.secondarytype = LightType.AREA then some p.secondary_light_size else none := by
  unfold secondaryLightData
  split_ifs <;> rfl

/-- Spot angle of a configured secondary datablock: assigned only for SPOT. -/
theorem secondaryLightData_spot_size (p : TriLightingProps) (name : String) (e : ℝ) :
    (secondaryLightData p name e).spot_size =
      if p.secondarytype = LightType.SPOT then some (radians p.spot_size_fill) else none := by
  unfold secondaryLightData
  split_ifs <;> rfl

/-- Spot blend of a configured secondary datablock: assigned only for SPOT. -/
theorem secondaryLightData_spot_blend (p : TriLightingProps) (name : String) (e : ℝ) :
    (secondaryLightData p name e).spot_blend =
      if p.secondarytype = LightType.SPOT then some p.spot_blend_fill else none := by
  unfold secondaryLightData
  split_ifs <;> rfl

/-- Shadow soft size of a configured secondary datablock: assigned only for
POINT or SPOT. -/
theorem secondaryLightData_shadow (p : TriLightingProps) (name : String) (e : ℝ) :
    (secondaryLightData p name e).shadow_soft_size =
      if p.secondarytype = LightType.POINT ∨ p.secondarytype = LightType.SPOT
      then some p.shadow_soft_size_fill else none := by
  unfold secondaryLightData
  split_ifs <;> rfl

/-- Name of the configured key datablock. -/
theorem keyLightData_name (p : TriLightingProps) (name : String) (e : ℝ) :
    (keyLightData p name e).name = name := by
  unfold keyLightData
  split_ifs <;> rfl

/-- Energy of the configured key datablock. -/
theorem keyLightData_energy (p : TriLightingProps) (name : String) (e : ℝ) :
    (keyLightData p name e).energy = e := by
  unfold keyLightData
  split_ifs <;> rfl

/-- Type of the configured key datablock. -/
theorem keyLightData_type (p : TriLightingProps) (name : String) (e : ℝ) :
    (keyLightData p name e).type = p.primarytype := by
  unfold keyLightData
  split_ifs <;> rfl

/-- Shape of the configured key datablock: assigned only for AREA. -/
theorem keyLightData_shape (p : TriLightingProps) (name : String) (e : ℝ) :
    (keyLightData p name e).shape =
      if p.primarytype = LightType.AREA then some p.key_light_shape else none := by
  unfold keyLightData
  split_ifs <;> rfl

/-- Size of the configured key datablock: assigned only for AREA. -/
theorem keyLightData_size (p : TriLightingProps) (name : String) (e : ℝ) :
    (keyLightData p name e).size =
      if p.primarytype = LightType.AREA then some p.key_light_size else none := by
  unfold keyLightData
  split_ifs <;> rfl

/-- Spot angle of the configured key datablock: assigned only for SPOT. -/
theorem keyLightData_spot_size (p : TriLightingProps) (name : String) (e : ℝ) :
    (keyLightData p name e).spot_size =
      if p.primarytype = LightType.SPOT then some (radians p.spot_size_key) else none := by
  unfold keyLightData
  split_ifs <;> rfl

/-- Spot blend of the configured key datablock: assigned only for SPOT. -/
theorem keyLightData_spot_blend (p : TriLightingProps) (name : String) (e : ℝ) :
    (keyLightData p name e).spot_blend =
      if p.primarytype = LightType.SPOT then some p.spot_blend_key else none := by
  unfold keyLightData
  split_ifs <;> rfl

/-- Shadow soft size of the configured key datablock: assigned only for
POINT or SPOT. -/
theorem keyLightData_shadow (p : TriLightingProps) (name : String) (e : ℝ) :
    (keyLightData p name e).shadow_soft_size =
      if p.primarytype = LightType.POINT ∨ p.primarytype = LightType.SPOT
      then some p.shadow_soft_size_key else none := by
  unfold keyLightData
  split_ifs <;> rfl

/-- The direction vector has zero length exactly when the camera position
coincides with the active object position. -/
theorem vectorLength_eq_zero_iff (s : SceneInput) :
    vectorLength s = 0 ↔ camPosition s = s.activeObject.location := by
  unfold vectorLength
  rw [show (0 : ℝ) = Real.sqrt 0 from Real.sqrt_zero.symm]
  rw [Real.sqrt_inj (by positivity) le_rfl]
  constructor
  · intro h
    have hx : (deltaPosition s).x = 0 := by nlinarith [sq_nonneg (deltaPosition s).x, sq_nonneg (deltaPosition s).y, sq_nonneg (deltaPosition s).z]
    have hy : (deltaPosition s).y = 0 := by nlinarith [sq_nonneg (deltaPosition s).x, sq_nonneg (deltaPosition s).y, sq_nonneg (deltaPosition s).z]
    have hz : (deltaPosition s).z = 0 := by nlinarith [sq_nonneg (deltaPosition s).x, sq_nonneg (deltaPosition s).y, sq_nonneg (deltaPosition s).z]
    unfold deltaPosition Vec3.sub at hx hy hz
    simp only at hx hy hz
    ext
    · linarith
    · linarith
    · linarith
  · intro h
    unfold deltaPosition
    rw [h]
    unfold Vec3.sub
    simp

/-- The failure-free run with a nonzero direction vector creates exactly
the back, fill and key lamps, in that order, each linked, placed, and
carrying the single TRACK_TO constraint. -/
theorem executeCore_none_run (p : TriLightingProps) (s : SceneInput)
    (h : vectorLength s ≠ 0) :
    executeCore p s none = Except.ok (CoreResult.finished,
      ⟨(startState s).calls + 12, (startState s).cameras,
       [secondaryLightData p "TriLamp-Back" (backEnergy p),
        secondaryLightData p "TriLamp-Fill" (fillEnergy p),
        keyLightData p "TriLamp-Key" (keyEnergy p)],
       [⟨"TriLamp-Back", secondaryLightData p "TriLamp-Back" (backEnergy p), true,
         backLocation p s, [trackToObj s]⟩,
        ⟨"TriLamp-Fill", secondaryLightData p "TriLamp-Fill" (fillEnergy p), true,
         rightLocation p s, [trackToObj s]⟩,
        ⟨"TriLamp-Key", keyLightData p "TriLamp-Key" (keyEnergy p), true,
         leftLocation p s, [trackToObj s]⟩]⟩) := by
  cases hc : s.camera with
  | some c =>
    simp only [executeCore, hc, startState, initState]
    rw [if_neg h]
    simp only [createLamp_none]
    simp [secondaryLightData_name, keyLightData_name]
  | none =>
    simp only [executeCore, hc, startState, initState, hostCall, newCameraEffect]
    rw [if_neg h]
    simp only [List.nil_append, createLamp_none]
    simp [secondaryLightData_name, keyLightData_name]

/-- The failure-free run with a zero direction vector takes the
degenerate-geometry early return, creating no lights. -/
theorem executeCore_none_degenerate (p : TriLightingProps) (s : SceneInput)
    (h : vectorLength s = 0) :
    executeCore p s none = Except.ok (CoreResult.cancelledNoViable, startState s) := by
  cases hc : s.camera with
  | some c =>
    simp only [executeCore, hc, startState, initState]
    rw [if_pos h]
  | none =>
    simp only [executeCore, hc, startState, initState, hostCall, newCameraEffect]
    rw [if_pos h]
    rfl

/-- Whatever the failure oracle, a run of the try-block body that reaches
the end has created exactly the back, fill and key lamps on top of the
camera-resolution state. -/
theorem executeCore_finished_state (p : TriLightingProps) (s : SceneInput)
    (fail : Option (ℕ × String)) (st : HostState)
    (h : executeCore p s fail = Except.ok (CoreResult.finished, st)) :
    st = ⟨(startState s).calls + 12, (startState s).cameras,
       [secondaryLightData p "TriLamp-Back" (backEnergy p),
        secondaryLightData p "TriLamp-Fill" (fillEnergy p),
        keyLightData p "TriLamp-Key" (keyEnergy p)],
       [⟨"TriLamp-Back", secondaryLightData p "TriLamp-Back" (backEnergy p), true,
         backLocation p s, [trackToObj s]⟩,
        ⟨"TriLamp-Fill", secondaryLightData p "TriLamp-Fill" (fillEnergy p), true,
         rightLocation p s, [trackToObj s]⟩,
        ⟨"TriLamp-Key", keyLightData p "TriLamp-Key" (keyEnergy p), true,
         leftLocation p s, [trackToObj s]⟩]⟩ := by
  unfold executeCore at h
  have hstart : ∀ st0 : HostState,
      (match s.camera with
       | some _ => Except.ok initState
       | none => hostCall fail (newCameraEffect s.viewpoint) initState) = Except.ok st0 →
      st0 = startState s := by
    intro st0 h0
    cases hc : s.camera with
    | some c =>
      rw [hc] at h0
      cases h0
      simp [startState, hc]
    | none =>
      rw [hc] at h0
      obtain rfl := hostCall_ok h0
      simp [startState, hc, newCameraEffect, initState]
  split at h
  · exact absurd h (by simp)
  · rename_i st0 h0
    obtain rfl := hstart st0 h0
    split at h
    · simp at h
    · split at h
      · exact absurd h (by simp)
      · rename_i st1 h1
        split at h
        · exact absurd h (by simp)
        · rename_i st2 h2
          split at h
          · exact absurd h (by simp)
          · rename_i st3 h3
            obtain rfl := createLamp_ok h1
            obtain rfl := createLamp_ok h2
            obtain rfl := createLamp_ok h3
            simp only [Except.ok.injEq, Prod.mk.injEq, true_and] at h
            obtain rfl := h
            simp [secondaryLightData_name, keyLightData_name]
            unfold startState
            cases s.camera <;> simp [initState]

/-- Any raise inside the try-block body carries the injected message. -/
theorem executeCore_error_msg (p : TriLightingProps) (s : SceneInput)
    (n : ℕ) (msg : String) (e : String × HostState)
    (h : executeCore p s (some (n, msg)) = Except.error e) : e.1 = msg := by
  unfold executeCore at h
  split at h
  · rename_i e0 h0
    cases h
    cases hc : s.camera with
    | some c => rw [hc] at h0; cases h0
    | none =>
      rw [hc] at h0
      exact congrArg Prod.fst (hostCall_error h0)
  · rename_i st0 h0
    split at h
    · simp at h
    · split at h
      · rename_i e1 h1
        cases h
        exact createLamp_error h1
      · rename_i st1 h1
        split at h
        · rename_i e2 h2
          cases h
          exact createLamp_error h2
        · rename_i st2 h2
          split at h
          · rename_i e3 h3
            cases h
            exact createLamp_error h3
          · rename_i st3 h3
            simp at h

/-- Status of the failure-free run: FINISHED exactly when the direction
vector is nonzero. -/
theorem execute_none_status (p : TriLightingProps) (s : SceneInput) :
    (execute p s none).status = Status.FINISHED ↔ vectorLength s ≠ 0 := by
  by_cases h : vectorLength s = 0
  · simp [execute, executeCore_none_degenerate p s h, h]
  · simp [execute, executeCore_none_run p s h, h]

/-- Lamps of a FINISHED failure-free run. -/
theorem execute_none_lamps (p : TriLightingProps) (s : SceneInput)
    (h : (execute p s none).status = Status.FINISHED) :
    (execute p s none).state.lamps =
      [⟨"TriLamp-Back", secondaryLightData p "TriLamp-Back" (backEnergy p), true,
        backLocation p s, [trackToObj s]⟩,
       ⟨"TriLamp-Fill", secondaryLightData p "TriLamp-Fill" (fillEnergy p), true,
        rightLocation p s, [trackToObj s]⟩,
       ⟨"TriLamp-Key", keyLightData p "TriLamp-Key" (keyEnergy p), true,
        leftLocation p s, [trackToObj s]⟩] := by
  have hv := (execute_none_status p s).mp h
  simp [execute, executeCore_none_run p s hv]

/-- Direction-vector length in the example scene: sqrt 25 = 5. -/
theorem exampleScene_vectorLength : vectorLength exampleScene = 5 := by
  unfold vectorLength deltaPosition camPosition exampleScene Vec3.sub
  norm_num
  rw [show (25 : ℝ) = 5 ^ 2 by norm_num]
  exact Real.sqrt_sq (by norm_num)

/-- Normalized direction vector in the example scene. -/
theorem exampleScene_singleVector : singleVector exampleScene = ⟨0, -1, 0⟩ := by
  unfold singleVector Vec3.smul
  rw [exampleScene_vectorLength]
  unfold deltaPosition camPosition exampleScene Vec3.sub
  norm_num

/-- The example run finishes. -/
theorem exampleScene_finished :
    (execute defaultProps exampleScene none).status = Status.FINISHED := by
  rw [execute_none_status]
  rw [exampleScene_vectorLength]
  norm_num

/-- C1: Energy split.  For every base energy E and contrast C in
[-100, 100], on a finished run the key light receives energy E and the fill
and back lights receive (E/100)*abs C when C is positive, and conversely
the key light receives (E/100)*abs C while fill and back receive E when C
is nonpositive.  The lamp list is ordered back, fill, key. -/
theorem C1_energy_split (p : TriLightingProps) (s : SceneInput)
    (hlo : -100 ≤ p.contrast) (hhi : p.contrast ≤ 100)
    (hfin : (execute p s none).status = Status.FINISHED) :
    ((execute p s none).state.lamps.map fun l => l.data.energy) =
      if 0 < p.contrast
      then [((p.energy : ℝ) / 100) * |(p.contrast : ℝ)|,
            ((p.energy : ℝ) / 100) * |(p.contrast : ℝ)|, (p.energy : ℝ)]
      else [(p.energy : ℝ), (p.energy : ℝ), ((p.energy : ℝ) / 100) * |(p.contrast : ℝ)|] := by
  rw [execute_none_lamps p s hfin]
  by_cases hC : 0 < p.contrast <;>
    simp [secondaryLightData_energy, keyLightData_energy, backEnergy, fillEnergy, keyEnergy, hC]

/-- C1 witness: the default invocation in the example scene. -/
theorem C1_energy_split_witness :
    (-100 ≤ defaultProps.contrast ∧ defaultProps.contrast ≤ 100 ∧
     (execute defaultProps exampleScene none).status = Status.FINISHED) ∧
    ((execute defaultProps exampleScene none).state.lamps.map fun l => l.data.energy) =
      (if 0 < defaultProps.contrast
       then [((defaultProps.energy : ℝ) / 100) * |(defaultProps.contrast : ℝ)|,
             ((defaultProps.energy : ℝ) / 100) * |(defaultProps.contrast : ℝ)|,
             (defaultProps.energy : ℝ)]
       else [(defaultProps.energy : ℝ), (defaultProps.energy : ℝ),
             ((defaultProps.energy : ℝ) / 100) * |(defaultProps.contrast : ℝ)|]) :=
  ⟨⟨by norm_num [defaultProps], by norm_num [defaultProps], exampleScene_finished⟩,
   C1_energy_split defaultProps exampleScene (by norm_num [defaultProps])
     (by norm_num [defaultProps]) exampleScene_finished⟩

/-- C5: Rotation round trip.  Applying the placement rotation formula with
angle a and then with angle -a returns the original vector exactly, over
exact real arithmetic. -/
theorem C5_rotation_roundtrip (a : ℝ) (v : Vec3) :
    rotateXY (-a) (rotateXY a v) = v := by
  unfold rotateXY
  ext
  · simp only [Real.cos_neg, Real.sin_neg]
    linear_combination v.x * Real.sin_sq_add_cos_sq a
  · simp only [Real.cos_neg, Real.sin_neg]
    linear_combination v.y * Real.sin_sq_add_cos_sq a
  · rfl

/-- C3: Position formula.  On a finished run the back, fill and key lights
sit at object xy plus distance times the rotation (by backangle, rightangle
and negated leftangle respectively) of the xy components of the normalized
direction vector, all at the configured height, independent of the object
and camera z coordinates. -/
theorem C3_positions (p : TriLightingProps) (s : SceneInput)
    (hfin : (execute p s none).status = Status.FINISHED) :
    ((execute p s none).state.lamps.map Lamp.location) =
      [⟨s.activeObject.location.x + p.distance *
          (Real.cos (radians (p.backangle : ℝ)) * (singleVector s).x -
           Real.sin (radians (p.backangle : ℝ)) * (singleVector s).y),
        s.activeObject.location.y + p.distance *
          (Real.sin (radians (p.backangle : ℝ)) * (singleVector s).x +
           Real.cos (radians (p.backangle : ℝ)) * (singleVector s).y),
        p.height⟩,
       ⟨s.activeObject.location.x + p.distance *
          (Real.cos (radians (p.rightangle : ℝ)) * (singleVector s).x -
           Real.sin (radians (p.rightangle : ℝ)) * (singleVector s).y),
        s.activeObject.location.y + p.distance *
          (Real.sin (radians (p.rightangle : ℝ)) * (singleVector s).x +
           Real.cos (radians (p.rightangle : ℝ)) * (singleVector s).y),
        p.height⟩,
       ⟨s.activeObject.location.x + p.distance *
          (Real.cos (radians (-(p.leftangle : ℝ))) * (singleVector s).x -
           Real.sin (radians (-(p.leftangle : ℝ))) * (singleVector s).y),
        s.activeObject.location.y + p.distance *
          (Real.sin (radians (-(p.leftangle : ℝ))) * (singleVector s).x +
           Real.cos (radians (-(p.leftangle : ℝ))) * (singleVector s).y),
        p.height⟩] := by
  rw [execute_none_lamps p s hfin]
  simp only [List.map_cons, List.map_nil, backLocation, rightLocation, leftLocation, rotateXY]
  refine congrArg₂ List.cons ?_ (congrArg₂ List.cons ?_ (congrArg₂ List.cons ?_ rfl)) <;>
    (ext <;> dsimp only <;> ring)

/-- C3 witness: the default invocation in the example scene. -/
theorem C3_positions_witness :
    (execute defaultProps exampleScene none).status = Status.FINISHED ∧
    ((execute defaultProps exampleScene none).state.lamps.map Lamp.location).length = 3 :=
  ⟨exampleScene_finished, by
    rw [C3_positions defaultProps exampleScene exampleScene_finished]
    rfl⟩

/-- C4: End-to-end example.  With the default properties (object at the
origin, camera at (0,-5,0), distance 5, height 5, angles 26/45/235, energy
3, contrast 50) the run yields back and fill energy 1.5 and key energy 3,
places the key light at the -26 degree rotation of the direction vector
(0,-1,0) scaled by 5 at height 5, and aims every TRACK_TO constraint at the
object at the origin. -/
theorem C4_end_to_end :
    ((execute defaultProps exampleScene none).state.lamps.map fun l => (l.name, l.data.energy)) =
      [("TriLamp-Back", (1.5 : ℝ)), ("TriLamp-Fill", (1.5 : ℝ)), ("TriLamp-Key", (3 : ℝ))] ∧
    ((execute defaultProps exampleScene none).state.lamps.map Lamp.location) =
      [backLocation defaultProps exampleScene, rightLocation defaultProps exampleScene,
       ⟨5 * (Real.cos (radians (-26)) * 0 - Real.sin (radians (-26)) * (-1)),
        5 * (Real.sin (radians (-26)) * 0 + Real.cos (radians (-26)) * (-1)), 5⟩] ∧
    ((execute defaultProps exampleScene none).state.lamps.map Lamp.constraints) =
      [[⟨⟨⟨0, 0, 0⟩⟩, "TRACK_NEGATIVE_Z", "UP_Y"⟩], [⟨⟨⟨0, 0, 0⟩⟩, "TRACK_NEGATIVE_Z", "UP_Y"⟩],
       [⟨⟨⟨0, 0, 0⟩⟩, "TRACK_NEGATIVE_Z", "UP_Y"⟩]] := by
  rw [execute_none_lamps defaultProps exampleScene exampleScene_finished]
  refine ⟨?_, ?_, ?_⟩
  · simp [secondaryLightData_name, keyLightData_name, secondaryLightData_energy,
      keyLightData_energy, backEnergy, fillEnergy, keyEnergy, defaultProps]
    norm_num
  · simp only [List.map_cons, List.map_nil]
    refine congrArg₂ List.cons rfl (congrArg₂ List.cons rfl (congrArg₂ List.cons ?_ rfl))
    unfold leftLocation rotateXY
    rw [exampleScene_singleVector]
    have h1 : exampleScene.activeObject.location = ⟨0, 0, 0⟩ := rfl
    have h2 : (defaultProps.leftangle : ℝ) = 26 := by norm_num [defaultProps]
    rw [h1, h2]
    have h3 : defaultProps.height = 5 := rfl
    have h4 : defaultProps.distance = 5 := rfl
    rw [h3, h4]
    ext <;> dsimp only <;> ring
  · simp [trackToObj]
    constructor <;> rfl

/-- C6: SPOT key-light frame condition.  When the key light type is SPOT,
the finished run gives the key light (the last created lamp) a spot angle
equal to the key spot size converted from degrees to radians and the key
blend fraction, and leaves the area-only shape and size fields unassigned. -/
theorem C6_spot_key (p : TriLightingProps) (s : SceneInput)
    (hspot : p.primarytype = LightType.SPOT)
    (hfin : (execute p s none).status = Status.FINISHED) :
    ((execute p s none).state.lamps.map fun l =>
        (l.data.spot_size, l.data.spot_blend, l.data.shape, l.data.size)).getLast? =
      some (some (radians p.spot_size_key), some p.spot_blend_key, none, none) := by
  rw [execute_none_lamps p s hfin]
  simp [keyLightData_spot_size, keyLightData_spot_blend, keyLightData_shape,
    keyLightData_size, hspot]

/-- C6 witness: SPOT key type in the example scene. -/
theorem C6_spot_key_witness :
    (spotKeyProps.primarytype = LightType.SPOT ∧
     (execute spotKeyProps exampleScene none).status = Status.FINISHED) ∧
    ((execute spotKeyProps exampleScene none).state.lamps.map fun l =>
        (l.data.spot_size, l.data.spot_blend, l.data.shape, l.data.size)).getLast? =
      some (some (radians spotKeyProps.spot_size_key), some spotKeyProps.spot_blend_key,
            none, none) := by
  have hfin : (execute spotKeyProps exampleScene none).status = Status.FINISHED := by
    rw [execute_none_status, exampleScene_vectorLength]
    norm_num
  exact ⟨⟨rfl, hfin⟩, C6_spot_key spotKeyProps exampleScene rfl hfin⟩

/-- C7: Parameter-set sharing.  On a finished run the back and fill lights
carry identical type, shape, size, spot and shadow parameters, all drawn
from the secondary parameter set, while the key light draws all of its
parameters from the key parameter set. -/
theorem C7_parameter_sets (p : TriLightingProps) (s : SceneInput)
    (hfin : (execute p s none).status = Status.FINISHED) :
    ((execute p s none).state.lamps.map fun l =>
        (l.data.type, l.data.shape, l.data.size, l.data.spot_size, l.data.spot_blend,
         l.data.shadow_soft_size)) =
      [(p.secondarytype,
        if p.secondarytype = LightType.AREA then some p.secondary_light_shape else none,
        if p.secondarytype = LightType.AREA then some p.secondary_light_size else none,
        if p.secondarytype = LightType.SPOT then some (radians p.spot_size_fill) else none,
        if p.secondarytype = LightType.SPOT then some p.spot_blend_fill else none,
        if p.secondarytype = LightType.POINT ∨ p.secondarytype = LightType.SPOT
        then some p.shadow_soft_size_fill else none),
       (p.secondarytype,
        if p.secondarytype = LightType.AREA then some p.secondary_light_shape else none,
        if p.secondarytype = LightType.AREA then some p.secondary_light_size else none,
        if p.secondarytype = LightType.SPOT then some (radians p.spot_size_fill) else none,
        if p.secondarytype = LightType.SPOT then some p.spot_blend_fill else none,
        if p.secondarytype = LightType.POINT ∨ p.secondarytype = LightType.SPOT
        then some p.shadow_soft_size_fill else none),
       (p.primarytype,
        if p.primarytype = LightType.AREA then some p.key_light_shape else none,
        if p.primarytype = LightType.AREA then some p.key_light_size else none,
        if p.primarytype = LightType.SPOT then some (radians p.spot_size_key) else none,
        if p.primarytype = LightType.SPOT then some p.spot_blend_key else none,
        if p.primarytype = LightType.POINT ∨ p.primarytype = LightType.SPOT
        then some p.shadow_soft_size_key else none)] := by
  rw [execute_none_lamps p s hfin]
  simp [secondaryLightData_type, secondaryLightData_shape, secondaryLightData_size,
    secondaryLightData_spot_size, secondaryLightData_spot_blend, secondaryLightData_shadow,
    keyLightData_type, keyLightData_shape, keyLightData_size, keyLightData_spot_size,
    keyLightData_spot_blend, keyLightData_shadow]

/-- C7 witness: the default invocation in the example scene. -/
theorem C7_parameter_sets_witness :
    (execute defaultProps exampleScene none).status = Status.FINISHED ∧
    ((execute defaultProps exampleScene none).state.lamps.map fun l =>
        (l.data.type, l.data.shape, l.data.size, l.data.spot_size, l.data.spot_blend,
         l.data.shadow_soft_size)).length = 3 :=
  ⟨exampleScene_finished, by
    rw [C7_parameter_sets defaultProps exampleScene exampleScene_finished]
    rfl⟩

/-- C8: Output-shape invariant.  Whatever the failure oracle, every
invocation that returns FINISHED has created exactly three lamp objects
(back, fill, key), each linked into the collection and each carrying
exactly one TRACK_TO constraint targeting the active object, tracking the
local negative Z axis with Y up. -/
theorem C8_output_shape (p : TriLightingProps) (s : SceneInput)
    (fail : Option (ℕ × String))
    (hfin : (execute p s fail).status = Status.FINISHED) :
    (execute p s fail).state.lamps.length = 3 ∧
    ((execute p s fail).state.lamps.map Lamp.constraints) =
      [[⟨s.activeObject, "TRACK_NEGATIVE_Z", "UP_Y"⟩],
       [⟨s.activeObject, "TRACK_NEGATIVE_Z", "UP_Y"⟩],
       [⟨s.activeObject, "TRACK_NEGATIVE_Z", "UP_Y"⟩]] ∧
    ((execute p s fail).state.lamps.map Lamp.linked) = [true, true, true] := by
  unfold execute at hfin ⊢
  cases hcore : executeCore p s fail with
  | error e =>
    rw [hcore] at hfin
    obtain ⟨msg, st⟩ := e
    simp at hfin
  | ok r =>
    obtain ⟨cr, st⟩ := r
    cases cr with
    | cancelledNoViable =>
      rw [hcore] at hfin
      simp at hfin
    | finished =>
      obtain rfl := executeCore_finished_state p s fail st hcore
      simp [trackToObj]

/-- C8 witness: the default invocation in the example scene, with no
failure injected. -/
theorem C8_output_shape_witness :
    (execute defaultProps exampleScene none).status = Status.FINISHED ∧
    (execute defaultProps exampleScene none).state.lamps.length = 3 ∧
    ((execute defaultProps exampleScene none).state.lamps.map Lamp.constraints) =
      [[⟨exampleScene.activeObject, "TRACK_NEGATIVE_Z", "UP_Y"⟩],
       [⟨exampleScene.activeObject, "TRACK_NEGATIVE_Z", "UP_Y"⟩],
       [⟨exampleScene.activeObject, "TRACK_NEGATIVE_Z", "UP_Y"⟩]] ∧
    ((execute defaultProps exampleScene none).state.lamps.map Lamp.linked) =
      [true, true, true] :=
  ⟨exampleScene_finished, C8_output_shape defaultProps exampleScene none exampleScene_finished⟩

/-- C2 counterexample: the claim that a degenerate invocation performs no
scene mutation fails.  In a scene with no camera whose viewpoint coincides
with the active object, the camera auto-created and linked before the
zero-length check (lines 245-253) survives the cancellation: the invocation
is degenerate (camera position equals object position), reports CANCELLED,
yet the created-camera log is nonempty. -/
theorem C2_counterexample :
    camPosition degenerateScene = degenerateScene.activeObject.location ∧
    (execute defaultProps degenerateScene none).status = Status.CANCELLED ∧
    (execute defaultProps degenerateScene none).state.cameras ≠ [] := by
  have hv : vectorLength degenerateScene = 0 := by
    rw [vectorLength_eq_zero_iff]
    rfl
  refine ⟨rfl, ?_, ?_⟩
  · simp [execute, executeCore_none_degenerate defaultProps degenerateScene hv]
  · simp only [execute, executeCore_none_degenerate defaultProps degenerateScene hv]
    simp [startState, degenerateScene]

/-- C2 amended: a degenerate invocation (camera position equal to object
position) reports the warning, returns CANCELLED, and creates no light
datablocks, no lamp objects and hence no constraints; and when the scene
already had a camera, no entity at all is created.  (When no camera
existed, the camera auto-created before the check remains.) -/
theorem C2_degenerate_atomicity (p : TriLightingProps) (s : SceneInput)
    (h : camPosition s = s.activeObject.location) :
    (execute p s none).status = Status.CANCELLED ∧
    (execute p s none).warnings = [noViableWarning] ∧
    (execute p s none).state.lamps = [] ∧
    (execute p s none).state.lightDatas = [] ∧
    (s.camera.isSome = true → (execute p s none).state.cameras = []) := by
  have hv : vectorLength s = 0 := (vectorLength_eq_zero_iff s).mpr h
  simp only [execute, executeCore_none_degenerate p s hv]
  unfold startState
  cases hc : s.camera <;> simp [initState]

/-- C2 witness: degenerate invocation with a pre-existing camera at the
object position; nothing at all is created. -/
theorem C2_degenerate_atomicity_witness :
    camPosition degenerateCamScene = degenerateCamScene.activeObject.location ∧
    ((execute defaultProps degenerateCamScene none).status = Status.CANCELLED ∧
     (execute defaultProps degenerateCamScene none).warnings = [noViableWarning] ∧
     (execute defaultProps degenerateCamScene none).state.lamps = [] ∧
     (execute defaultProps degenerateCamScene none).state.lightDatas = [] ∧
     (degenerateCamScene.camera.isSome = true →
       (execute defaultProps degenerateCamScene none).state.cameras = [])) :=
  ⟨rfl, C2_degenerate_atomicity defaultProps degenerateCamScene rfl⟩

/-- A concrete failing run: the fifth host call (the creation of the fill
light datablock, right after the back lamp is complete) raises.  The run
stops with the back lamp already created and linked. -/
theorem exampleScene_errorRun :
    executeCore defaultProps exampleScene (some (4, "boom")) =
      Except.error ("boom",
        ⟨4, [], [secondaryLightData defaultProps "TriLamp-Back" (backEnergy defaultProps)],
         [⟨"TriLamp-Back", secondaryLightData defaultProps "TriLamp-Back" (backEnergy defaultProps),
           true, backLocation defaultProps exampleScene, [trackToObj exampleScene]⟩]⟩) := by
  have hv : vectorLength exampleScene ≠ 0 := by
    rw [exampleScene_vectorLength]
    norm_num
  simp only [executeCore, show exampleScene.camera = some ⟨⟨0, -5, 0⟩⟩ from rfl]
  rw [if_neg hv]
  simp only [createLamp, hostCall, initState, newLightEffect, newLampEffect, setLastLamp]
  norm_num [List.dropLast_concat, secondaryLightData_name]

/-- C9: Generic-exception handling.  Whenever a host call raises during the
try block (any injected failure point n with message msg), the exception is
caught at the top level, the generic warning is reported, the underlying
error message is forwarded to the console log, and the operation returns
CANCELLED with the scene log exactly as it stood at the raise: entities
created before the failure point are not rolled back. -/
theorem C9_exception_handling (p : TriLightingProps) (s : SceneInput)
    (n : ℕ) (msg : String) (e : String × HostState)
    (h : executeCore p s (some (n, msg)) = Except.error e) :
    (execute p s (some (n, msg))).status = Status.CANCELLED ∧
    (execute p s (some (n, msg))).warnings = [genericWarning] ∧
    (execute p s (some (n, msg))).console = [consoleError msg] ∧
    (execute p s (some (n, msg))).state = e.2 := by
  obtain ⟨m, st⟩ := e
  obtain rfl : m = msg := executeCore_error_msg p s n msg (m, st) h
  simp [execute, h]

/-- C9 witness: a raise at the fifth host call leaves the back lamp in the
scene (the scene is already mutated), reports the generic warning with the error
forwarded, and returns CANCELLED. -/
theorem C9_exception_handling_witness :
    executeCore defaultProps exampleScene (some (4, "boom")) =
      Except.error ("boom",
        ⟨4, [], [secondaryLightData defaultProps "TriLamp-Back" (backEnergy defaultProps)],
         [⟨"TriLamp-Back", secondaryLightData defaultProps "TriLamp-Back" (backEnergy defaultProps),
           true, backLocation defaultProps exampleScene, [trackToObj exampleScene]⟩]⟩) ∧
    ((execute defaultProps exampleScene (some (4, "boom"))).status = Status.CANCELLED ∧
     (execute defaultProps exampleScene (some (4, "boom"))).warnings = [genericWarning] ∧
     (execute defaultProps exampleScene (some (4, "boom"))).console = [consoleError "boom"] ∧
     (execute defaultProps exampleScene (some (4, "boom"))).state =
       (("boom",
         (⟨4, [], [secondaryLightData defaultProps "TriLamp-Back" (backEnergy defaultProps)],
          [⟨"TriLamp-Back", secondaryLightData defaultProps "TriLamp-Back" (backEnergy defaultProps),
            true, backLocation defaultProps exampleScene, [trackToObj exampleScene]⟩]⟩ : HostState)) :
          String × HostState).2) ∧
    (execute defaultProps exampleScene (some (4, "boom"))).state.lamps ≠ [] := by
  refine ⟨exampleScene_errorRun,
    C9_exception_handling defaultProps exampleScene 4 "boom" _ exampleScene_errorRun, ?_⟩
  have h := (C9_exception_handling defaultProps exampleScene 4 "boom" _
    exampleScene_errorRun).2.2.2
  rw [h]
  simp

/-- The placement rotation preserves the squared horizontal norm. -/
theorem rotateXY_norm2 (a : ℝ) (v : Vec3) :
    (rotateXY a v).x ^ 2 + (rotateXY a v).y ^ 2 = v.x ^ 2 + v.y ^ 2 := by
  unfold rotateXY
  dsimp only
  linear_combination (v.x ^ 2 + v.y ^ 2) * Real.sin_sq_add_cos_sq a

/-- The normalized direction vector has unit norm whenever the direction is
nonzero. -/
theorem singleVector_norm (s : SceneInput) (h : vectorLength s ≠ 0) :
    (singleVector s).x ^ 2 + (singleVector s).y ^ 2 + (singleVector s).z ^ 2 = 1 := by
  have hL : vectorLength s ^ 2 =
      (deltaPosition s).x ^ 2 + (deltaPosition s).y ^ 2 + (deltaPosition s).z ^ 2 := by
    unfold vectorLength
    exact Real.sq_sqrt (by positivity)
  unfold singleVector Vec3.smul
  dsimp only
  field_simp
  linear_combination -hL

/-- C10: Implicit edge case.  The degenerate-geometry cancellation happens
exactly when the full 3D camera-object distance is zero; a camera that
differs from the object only in z does not cancel and places all three
lights exactly at the object xy at the configured height; and on any
finished run each light sits at horizontal distance
distance * sqrt(dx^2 + dy^2) from the object (dx, dy the normalized
direction components), which is at most the configured distance, and
strictly below it whenever the camera and object z coordinates differ. -/
theorem C10_xy_projection (p : TriLightingProps) (s : SceneInput)
    (hd : 0 < p.distance) :
    ((execute p s none).status = Status.CANCELLED ↔
      camPosition s = s.activeObject.location) ∧
    ((camPosition s).x = s.activeObject.location.x →
     (camPosition s).y = s.activeObject.location.y →
     (camPosition s).z ≠ s.activeObject.location.z →
      (execute p s none).status = Status.FINISHED ∧
      ((execute p s none).state.lamps.map Lamp.location) =
        [⟨s.activeObject.location.x, s.activeObject.location.y, p.height⟩,
         ⟨s.activeObject.location.x, s.activeObject.location.y, p.height⟩,
         ⟨s.activeObject.location.x, s.activeObject.location.y, p.height⟩]) ∧
    ((execute p s none).status = Status.FINISHED →
      ((execute p s none).state.lamps.map fun l =>
          Real.sqrt ((l.location.x - s.activeObject.location.x) ^ 2 +
                     (l.location.y - s.activeObject.location.y) ^ 2)) =
        [p.distance * Real.sqrt ((singleVector s).x ^ 2 + (singleVector s).y ^ 2),
         p.distance * Real.sqrt ((singleVector s).x ^ 2 + (singleVector s).y ^ 2),
         p.distance * Real.sqrt ((singleVector s).x ^ 2 + (singleVector s).y ^ 2)] ∧
      p.distance * Real.sqrt ((singleVector s).x ^ 2 + (singleVector s).y ^ 2) ≤ p.distance ∧
      ((camPosition s).z ≠ s.activeObject.location.z →
        p.distance * Real.sqrt ((singleVector s).x ^ 2 + (singleVector s).y ^ 2) <
          p.distance)) := by
  have hstat := execute_none_status p s
  refine ⟨?_, ?_, ?_⟩
  · constructor
    · intro hC
      by_contra hne
      have hv : vectorLength s ≠ 0 := fun h0 => hne ((vectorLength_eq_zero_iff s).mp h0)
      have hF := hstat.mpr hv
      rw [hF] at hC
      exact absurd hC (by simp)
    · intro hC
      have hv : vectorLength s = 0 := (vectorLength_eq_zero_iff s).mpr hC
      simp [execute, executeCore_none_degenerate p s hv]
  · intro hx hy hz
    have hdx : (deltaPosition s).x = 0 := by
      unfold deltaPosition Vec3.sub
      dsimp only
      rw [hx]
      ring
    have hdy : (deltaPosition s).y = 0 := by
      unfold deltaPosition Vec3.sub
      dsimp only
      rw [hy]
      ring
    have hdz : (deltaPosition s).z ≠ 0 := by
      unfold deltaPosition Vec3.sub
      dsimp only
      exact sub_ne_zero.mpr hz
    have hv : vectorLength s ≠ 0 := by
      have hrw : vectorLength s = Real.sqrt ((deltaPosition s).z ^ 2) := by
        unfold vectorLength
        rw [hdx, hdy]
        norm_num
      rw [hrw, Real.sqrt_sq_eq_abs]
      exact abs_ne_zero.mpr hdz
    have hsx : (singleVector s).x = 0 := by
      unfold singleVector Vec3.smul
      dsimp only
      rw [hdx]
      ring
    have hsy : (singleVector s).y = 0 := by
      unfold singleVector Vec3.smul
      dsimp only
      rw [hdy]
      ring
    refine ⟨hstat.mpr hv, ?_⟩
    rw [execute_none_lamps p s (hstat.mpr hv)]
    simp only [List.map_cons, List.map_nil, backLocation, rightLocation, leftLocation,
      rotateXY, hsx, hsy]
    refine congrArg₂ List.cons ?_ (congrArg₂ List.cons ?_ (congrArg₂ List.cons ?_ rfl)) <;>
      (ext <;> dsimp only <;> ring)
  · intro hfin
    have hv := hstat.mp hfin
    have hoff : ∀ a : ℝ,
        Real.sqrt ((s.activeObject.location.x +
              p.distance * (rotateXY a (singleVector s)).x - s.activeObject.location.x) ^ 2 +
            (s.activeObject.location.y +
              p.distance * (rotateXY a (singleVector s)).y - s.activeObject.location.y) ^ 2) =
        p.distance * Real.sqrt ((singleVector s).x ^ 2 + (singleVector s).y ^ 2) := by
      intro a
      have h1 : (s.activeObject.location.x +
            p.distance * (rotateXY a (singleVector s)).x - s.activeObject.location.x) ^ 2 +
          (s.activeObject.location.y +
            p.distance * (rotateXY a (singleVector s)).y - s.activeObject.location.y) ^ 2 =
          p.distance ^ 2 * ((rotateXY a (singleVector s)).x ^ 2 +
            (rotateXY a (singleVector s)).y ^ 2) := by
        ring
      rw [h1, rotateXY_norm2, Real.sqrt_mul (by positivity), Real.sqrt_sq hd.le]
    have hsv := singleVector_norm s hv
    refine ⟨?_, ?_, ?_⟩
    · rw [execute_none_lamps p s hfin]
      simp only [List.map_cons, List.map_nil, backLocation, rightLocation, leftLocation]
      rw [hoff, hoff, hoff]
    · have hle : (singleVector s).x ^ 2 + (singleVector s).y ^ 2 ≤ 1 := by
        nlinarith [sq_nonneg (singleVector s).z]
      have hsq : Real.sqrt ((singleVector s).x ^ 2 + (singleVector s).y ^ 2) ≤ 1 := by
        rw [show (1 : ℝ) = Real.sqrt 1 from Real.sqrt_one.symm]
        exact Real.sqrt_le_sqrt hle
      exact mul_le_of_le_one_right hd.le hsq
    · intro hz
      have hdz : (deltaPosition s).z ≠ 0 := by
        unfold deltaPosition Vec3.sub
        dsimp only
        exact sub_ne_zero.mpr hz
      have hsz : (singleVector s).z ≠ 0 := by
        unfold singleVector Vec3.smul
        dsimp only
        exact mul_ne_zero (one_div_ne_zero hv) hdz
      have h2 : 0 < (singleVector s).z ^ 2 :=
        lt_of_le_of_ne (sq_nonneg _) (Ne.symm (pow_ne_zero 2 hsz))
      have hlt : (singleVector s).x ^ 2 + (singleVector s).y ^ 2 < 1 := by nlinarith
      have hsq : Real.sqrt ((singleVector s).x ^ 2 + (singleVector s).y ^ 2) < 1 := by
        rw [show (1 : ℝ) = Real.sqrt 1 from Real.sqrt_one.symm]
        exact Real.sqrt_lt_sqrt (by positivity) hlt
      exact mul_lt_of_lt_one_right hd hsq

/-- C10 witness: the default invocation in the example scene settles the
iff, and in the overhead scene (camera straight above the object) the run
finishes with all three lights horizontally coincident with the object. -/
theorem C10_xy_projection_witness :
    (0 < defaultProps.distance ∧
     ((execute defaultProps exampleScene none).status = Status.CANCELLED ↔
       camPosition exampleScene = exampleScene.activeObject.location)) ∧
    ((execute defaultProps overheadScene none).status = Status.FINISHED ∧
     ((execute defaultProps overheadScene none).state.lamps.map Lamp.location) =
       [⟨2, 3, defaultProps.height⟩, ⟨2, 3, defaultProps.height⟩,
        ⟨2, 3, defaultProps.height⟩]) :=
  ⟨⟨by norm_num [defaultProps],
    (C10_xy_projection defaultProps exampleScene (by norm_num [defaultProps])).1⟩,
   (C10_xy_projection defaultProps overheadScene (by norm_num [defaultProps])).2.1
     rfl rfl (by norm_num [overheadScene, camPosition])⟩

end TriLighting
